import Mathlib

/-!
# Lifecycle of the Keycloak protobuf event server

A shallow embedding of `server/server.go` (together with the configuration
record of `config/config.go`) and the lifecycle properties of `Server.Start`,
`Server.Stop`, the accept-loop task and the two RPC handlers.

Conventions of the embedding

* A Go `error` is an `Option String`: `none` is `nil`, `some msg` a non-nil error.
* A Go function returning `(value, err)` returns a pair here, so that the
  variable `err` of the source is a value of the model.
* A channel of `struct{}` that is only ever closed is its `closed` flag; `close`
  on a closed channel is the Go run-time panic, so every operation returns
  `Except Panic _`.
* The standard library and gRPC calls whose results the code branches on
  (`net.Listen`, `ioutil.ReadFile`, `tls.X509KeyPair`, PEM decoding, the two
  `select` races) are parameters: `Env` for `Start`, `DrainRace` for `Stop`.
* `Start` and `Stop` hold the mutex for their whole body, so each is one atomic
  step.  The accept-loop task takes no lock; it is a small program counter
  (`LoopState`) advanced by its own steps, which interleave freely with calls.
-/

namespace KeycloakEventServer

/-! ## Go values -/

/-- Go `error`: `none` is `nil`. -/
abbrev GoError := Option String

/-- File contents and other byte slices. -/
abbrev Bytes := List Nat

/-- Run-time panics the code can raise. -/
inductive Panic where
  | closeOfClosedChannel
  | nilPointerDereference
deriving DecidableEq, Repr

/-- A `chan struct{}` on which the only operation performed is `close`. -/
structure Chan where
  closed : Bool
deriving DecidableEq, Repr

/-- The builtin `make(chan struct{})`. -/
def makeChan : Chan := { closed := false }

/-- The builtin `close(c)`: panics when `c` is already closed. -/
def Chan.close (c : Chan) : Except Panic Chan :=
  if c.closed then .error Panic.closeOfClosedChannel else .ok { closed := true }

/-! ## `config.ServerConfig` -/

/-- The record `config.ServerConfig`. -/
structure ServerConfig where
  BindHostPort : String
  NoTLS : Bool
  TLSTrustedCertificatesFilePath : String
  TLSCertificateFilePath : String
  TLSKeyFilePath : String
  GracefulStopTimeoutMillis : Int
deriving DecidableEq, Repr

/-! ## TLS material (`crypto/tls`, `crypto/x509`) -/

/-- A `tls.Certificate`: the certificate chain and the private key it was built from. -/
structure Certificate where
  cert : Bytes
  key : Bytes
deriving DecidableEq, Repr

/-- The enumeration `tls.ClientAuthType`; `NoClientCert` is its zero value. -/
inductive ClientAuthType where
  | NoClientCert
  | RequestClientCert
  | RequireAnyClientCert
  | VerifyClientCertIfGiven
  | RequireAndVerifyClientCert
deriving DecidableEq, Repr

/-- An `x509.CertPool`: the certificates it holds. -/
structure CertPool where
  certs : List Bytes
deriving DecidableEq, Repr

/-- The builtin `x509.NewCertPool()`. -/
def NewCertPool : CertPool := { certs := [] }

/-- The fields of `tls.Config` the server sets; `ClientCAs = none` is the nil pool. -/
structure TLSConfig where
  Certificates : List Certificate
  ClientCAs : Option CertPool
  ClientAuth : ClientAuthType
deriving DecidableEq, Repr

/-- A bound `net.Listener`; the nil interface value is `none`. -/
structure Listener where
  network : String
  address : String
deriving DecidableEq, Repr

/-! ## The RPC engine (`grpc.Server`) -/

/-- What the lifecycle can observe of a `grpc.Server`: the transport credentials it
was created with, the services registered on it, and how many times each of the
two stop calls has been issued on it. -/
structure GrpcServer where
  creds : Option TLSConfig
  services : List String
  gracefulStopCalls : Nat
  stopCalls : Nat
deriving DecidableEq, Repr

/-- The calls `grpc.NewServer()` (`creds = none`) and
`grpc.NewServer(grpc.Creds(credentials.NewTLS(tlsConfig)))`. -/
def grpcNewServer (creds : Option TLSConfig) : GrpcServer :=
  { creds := creds, services := [], gracefulStopCalls := 0, stopCalls := 0 }

/-- The call `eventlistener.RegisterKeycloakEventServiceServer(srv, s)`. -/
def RegisterKeycloakEventServiceServer (srv : GrpcServer) : GrpcServer :=
  { srv with services := srv.services ++ ["KeycloakEventService"] }

/-- The call `srv.GracefulStop()`. -/
def GrpcServer.GracefulStop (srv : GrpcServer) : GrpcServer :=
  { srv with gracefulStopCalls := srv.gracefulStopCalls + 1 }

/-- The call `srv.Stop()`. -/
def GrpcServer.Stop (srv : GrpcServer) : GrpcServer :=
  { srv with stopCalls := srv.stopCalls + 1 }

/-! ## RPC messages -/

/-- Modelled from the spec: the payload of an `OnEvent` call (the message type
`eventlistener.Event` is declared outside the sources at hand); the example
scenario sends one with an `id`. -/
structure EventPayload where
  id : String
deriving DecidableEq, Repr

/-- Modelled from the spec: the payload of an `OnAdminEvent` call (the message
type `eventlistener.AdminEvent` is declared outside the sources at hand). -/
structure AdminEventPayload where
  id : String
deriving DecidableEq, Repr

/-- Modelled from the spec: the message `eventlistener.EventRequest` (declared outside the
sources at hand) carries the event payload in a pointer field. -/
structure EventRequest where
  Event : Option EventPayload
deriving DecidableEq, Repr

/-- Modelled from the spec: the message `eventlistener.AdminEventRequest` (declared outside
the sources at hand) carries the admin-event payload in a pointer field. -/
structure AdminEventRequest where
  AdminEvent : Option AdminEventPayload
deriving DecidableEq, Repr

/-- Modelled from the spec: the getter `(*EventRequest).GetEvent` is generated code declared
outside the sources at hand; the handler acknowledges every request, so the getter returns
the payload, and nil on a nil request. -/
def EventRequest.GetEvent (request : Option EventRequest) : Option EventPayload :=
  match request with
  | none => none
  | some x => x.Event

/-- Modelled from the spec: the getter `(*AdminEventRequest).GetAdminEvent` is generated code
declared outside the sources at hand; the handler acknowledges every request, so the getter
returns the payload, and nil on a nil request. -/
def AdminEventRequest.GetAdminEvent (request : Option AdminEventRequest) :
    Option AdminEventPayload :=
  match request with
  | none => none
  | some x => x.AdminEvent

/-- Modelled from the spec: the message `shared.Empty` (declared outside the sources at
hand) is the empty success value, with no fields. -/
structure Empty where
deriving DecidableEq, Repr

/-! ## Logging collaborator -/

/-- Levels of `hclog.Logger` used by the server. -/
inductive Level where
  | info
  | warn
  | error
deriving DecidableEq, Repr

/-- A value passed to the logger after a key. -/
inductive LogValue where
  | str (s : String)
  | err (e : GoError)
  | event (e : Option EventPayload)
  | adminEvent (e : Option AdminEventPayload)
deriving DecidableEq, Repr

/-- One call on the logger: level, message and the key/value pairs. -/
structure LogEntry where
  level : Level
  msg : String
  args : List (String × LogValue)
deriving DecidableEq, Repr

/-! ## The server and the world around it -/

/-- The struct `Server` (the mutex and the logger handle apart). -/
structure Server where
  config : ServerConfig
  chanReady : Chan
  chanStopped : Chan
  chanFailed : Chan
  failedError : GoError
  srv : Option GrpcServer
  wasStarted : Bool
  running : Bool
deriving DecidableEq, Repr

/-- Program counter of the accept-loop task launched by `Start`
(`go func() { if err := s.srv.Serve(listener); err != nil { ... } }()`). -/
inductive LoopState where
  /-- No task has been launched. -/
  | notLaunched
  /-- Blocked in `s.srv.Serve(listener)`. -/
  | serving (listener : Option Listener)
  /-- `Serve` returned the non-nil `err`, the error was logged; next is `s.failedError = err`. -/
  | returned (err : String)
  /-- Next is `close(chanErr)`. -/
  | closingErr
  /-- Next is `close(s.chanFailed)`. -/
  | closingFailed
  /-- The task has ended. -/
  | exited
deriving DecidableEq, Repr

/-- The server together with what its operations act on besides its own fields:
the log sink, the bind attempts made so far, the accept-loop task and the
channel `chanErr` that `Start` shares with it. -/
structure World where
  s : Server
  log : List LogEntry
  binds : List String
  loop : LoopState
  chanErr : Chan
deriving DecidableEq, Repr

/-- The constructor `NewServer(cfg, logger)`. -/
def NewServer (cfg : ServerConfig) : Server :=
  { config := cfg
    chanFailed := makeChan
    chanReady := makeChan
    chanStopped := makeChan
    failedError := none
    srv := none
    wasStarted := false
    running := false }

/-- The world right after `NewServer(cfg, logger)`. -/
def NewWorld (cfg : ServerConfig) : World :=
  { s := NewServer cfg, log := [], binds := [], loop := LoopState.notLaunched, chanErr := makeChan }

/-- A call `s.logger.Info/Warn/Error(msg, args...)`. -/
def World.logf (w : World) (level : Level) (msg : String) (args : List (String × LogValue)) :
    World :=
  { w with log := w.log ++ [{ level := level, msg := msg, args := args }] }

/-- The statement `close(s.chanFailed)`. -/
def World.closeFailed (w : World) : Except Panic World :=
  match w.s.chanFailed.close with
  | .error p => .error p
  | .ok c => .ok { w with s := { w.s with chanFailed := c } }

/-- The statement `close(s.chanReady)`. -/
def World.closeReady (w : World) : Except Panic World :=
  match w.s.chanReady.close with
  | .error p => .error p
  | .ok c => .ok { w with s := { w.s with chanReady := c } }

/-- The statement `close(s.chanStopped)`. -/
def World.closeStopped (w : World) : Except Panic World :=
  match w.s.chanStopped.close with
  | .error p => .error p
  | .ok c => .ok { w with s := { w.s with chanStopped := c } }

/-- The statements `s.failedError = err; close(s.chanFailed); return` that end each
failing branch of `Start`. -/
def World.failWith (w : World) (err : GoError) : Except Panic World :=
  World.closeFailed { w with s := { w.s with failedError := err } }

/-! ## Environment of a call -/

/-- Outcome of the `select` at the end of `Start`. -/
inductive StartupRace where
  /-- The branch `<-time.After(100)` was taken. -/
  | graceElapsed
  /-- The branch `<-chanErr` was taken: `Serve` had returned the non-nil `err` and the
  task had closed `chanErr`. -/
  | serveFailed (err : String)
deriving DecidableEq, Repr

/-- What the world answers to the calls `Start` makes. -/
structure Env where
  /-- The call `net.Listen(network, address)`. -/
  Listen : String → String → Option Listener × GoError
  /-- The call `ioutil.ReadFile(path)`. -/
  ReadFile : String → Bytes × GoError
  /-- The call `tls.X509KeyPair(certPEMBlock, keyPEMBlock)`. -/
  X509KeyPair : Bytes → Bytes → Certificate × GoError
  /-- The certificates that PEM-decode and parse out of a bundle. -/
  ParsePEMCerts : Bytes → List Bytes
  /-- Which branch the `select` at the end of `Start` takes. -/
  race : StartupRace

/-- The library function `tls.LoadX509KeyPair(certFile, keyFile)`: reads both files, then
parses the pair. -/
def LoadX509KeyPair (env : Env) (certFile keyFile : String) : Certificate × GoError :=
  let certPEMBlock := (env.ReadFile certFile).1
  let err := (env.ReadFile certFile).2
  if err.isSome then
    ({ cert := [], key := [] }, err)
  else
    let keyPEMBlock := (env.ReadFile keyFile).1
    let err := (env.ReadFile keyFile).2
    if err.isSome then
      ({ cert := [], key := [] }, err)
    else
      env.X509KeyPair certPEMBlock keyPEMBlock

/-- The library method `(*CertPool).AppendCertsFromPEM(pemCerts)`: appends every certificate
found and reports whether there was at least one. -/
def CertPool.AppendCertsFromPEM (env : Env) (pool : CertPool) (pemCerts : Bytes) :
    CertPool × Bool :=
  ({ certs := pool.certs ++ env.ParsePEMCerts pemCerts }, !(env.ParsePEMCerts pemCerts).isEmpty)

/-- Outcome of the `select` in `Stop`. -/
inductive DrainRace where
  /-- The branch `<-chanSignal` was taken: `GracefulStop` returned first. -/
  | drained
  /-- The branch `<-time.After(timeout)` was taken. -/
  | timedOut
deriving DecidableEq, Repr

/-! ## The accept-loop task -/

/-- The call `s.srv.Serve(listener)` returns `err` in the task (lines 121-122): a nil
error ends the task, a non-nil one is logged and the task goes on to report it. -/
def serveReturns (err : GoError) (w : World) : World :=
  match w.loop with
  | LoopState.serving _ =>
    match err with
    | some e =>
      { w.logf Level.error "Failed to serve" [("reason", LogValue.str "error")] with
        loop := LoopState.returned e }
    | none => { w with loop := LoopState.exited }
  | _ => w

/-- The task executes its next statement (lines 123, 124, 125). -/
def loopStep (w : World) : Except Panic World :=
  match w.loop with
  | LoopState.returned e =>
    .ok { w with s := { w.s with failedError := some e }, loop := LoopState.closingErr }
  | LoopState.closingErr =>
    match w.chanErr.close with
    | .error p => .error p
    | .ok c => .ok { w with chanErr := c, loop := LoopState.closingFailed }
  | LoopState.closingFailed =>
    match w.closeFailed with
    | .error p => .error p
    | .ok w1 => .ok { w1 with loop := LoopState.exited }
  | _ => .ok w

/-! ## `Server.Start` -/

/-- Lines 116-135 of `Start`: register the service, launch the accept-loop task and wait
in the `select`.  In the branch `<-chanErr` the task has run up to and including
`close(chanErr)`; its `close(s.chanFailed)` is still to come.  In the branch
`<-time.After(100)` the task is left in `Serve`: whatever it did before the timer fired
writes only `failedError`, `chanErr` and `chanFailed`, which this branch does not touch,
so it is the same as doing it after `Start` returns. -/
def Start.serve (env : Env) (listener : Option Listener) (w : World) : Except Panic World :=
  let w := w.logf Level.info "Registering seervice with the GRPC server" []
  match w.s.srv with
  | none => .error Panic.nilPointerDereference
  | some srv =>
    let w := { w with s := { w.s with srv := some (RegisterKeycloakEventServiceServer srv) } }
    let w := { w with chanErr := makeChan, loop := LoopState.serving listener }
    match env.race with
    | StartupRace.serveFailed e =>
      match loopStep (serveReturns (some e) w) with
      | .error p => .error p
      | .ok w1 => loopStep w1
    | StartupRace.graceElapsed =>
      let w := w.logf Level.info "GRPC server running" []
      World.closeReady { w with s := { w.s with running := true } }

/-- The method `Server.Start`. -/
def Start (env : Env) (w : World) : Except Panic World :=
  if !w.s.wasStarted then
    let w := { w with s := { w.s with wasStarted := true } }
    let listener := (env.Listen "tcp" w.s.config.BindHostPort).1
    let err := (env.Listen "tcp" w.s.config.BindHostPort).2
    let w := { w with binds := w.binds ++ [w.s.config.BindHostPort] }
    if err.isSome then
      let w := w.logf Level.error "Failed to create TCP listener"
        [("hostport", LogValue.str w.s.config.BindHostPort), ("reason", LogValue.err err)]
      w.failWith err
    else
      let w := w.logf Level.info "TCP listener created"
        [("hostport", LogValue.str w.s.config.BindHostPort)]
      if !w.s.config.NoTLS then
        let w := w.logf Level.info "Starting with TLS" []
        let certificate :=
          (LoadX509KeyPair env w.s.config.TLSCertificateFilePath w.s.config.TLSKeyFilePath).1
        let err :=
          (LoadX509KeyPair env w.s.config.TLSCertificateFilePath w.s.config.TLSKeyFilePath).2
        if err.isSome then
          let w := w.logf Level.error "Failed to load server certificate or key"
            [("cert-file-path", LogValue.str w.s.config.TLSCertificateFilePath),
             ("key-file-path", LogValue.str w.s.config.TLSKeyFilePath),
             ("reason", LogValue.err err)]
          w.failWith err
        else
          let tlsConfig : TLSConfig :=
            { Certificates := [certificate], ClientCAs := none,
              ClientAuth := ClientAuthType.NoClientCert }
          if w.s.config.TLSTrustedCertificatesFilePath != "" then
            let certPool := NewCertPool
            let ca := (env.ReadFile w.s.config.TLSTrustedCertificatesFilePath).1
            let err := (env.ReadFile w.s.config.TLSTrustedCertificatesFilePath).2
            if err.isSome then
              let w := w.logf Level.error "Failed to load trusted certificate"
                [("trusted-cert-file-path",
                    LogValue.str w.s.config.TLSTrustedCertificatesFilePath),
                 ("reason", LogValue.err err)]
              w.failWith err
            else
              let ok := (certPool.AppendCertsFromPEM env ca).2
              let certPool := (certPool.AppendCertsFromPEM env ca).1
              if !ok then
                let w := w.logf Level.error
                  "Failed to append trusted certificate to the cert pool"
                  [("reason", LogValue.err err)]
                w.failWith err
              else
                let tlsConfig := { tlsConfig with
                  ClientCAs := some certPool,
                  ClientAuth := ClientAuthType.RequireAndVerifyClientCert }
                Start.serve env listener
                  { w with s := { w.s with srv := some (grpcNewServer (some tlsConfig)) } }
          else
            Start.serve env listener
              { w with s := { w.s with srv := some (grpcNewServer (some tlsConfig)) } }
      else
        let w := w.logf Level.warn "Starting without TLS, use TLS in production" []
        Start.serve env listener { w with s := { w.s with srv := some (grpcNewServer none) } }
  else
    .ok (w.logf Level.warn "Server was already started, can't start twice" [])

/-! ## `Server.Stop` -/

/-- The method `Server.Stop`.  `GracefulStop` is always issued (on its own task); the
forced `s.srv.Stop()` only in the timeout branch of the `select`. -/
def Stop (d : DrainRace) (w : World) : Except Panic World :=
  if w.s.running then
    let w := w.logf Level.info "Attempting graceful stop" []
    match w.s.srv with
    | none => .error Panic.nilPointerDereference
    | some srv =>
      let srv := srv.GracefulStop
      let w := { w with s := { w.s with srv := some srv } }
      let w :=
        match d with
        | DrainRace.drained => w.logf Level.info "Stopped gracefully" []
        | DrainRace.timedOut =>
          let w := w.logf Level.warn "Failed to stop gracefully within timeout, forceful stop" []
          { w with s := { w.s with srv := some srv.Stop } }
      let w := w.logf Level.info "Stopped" []
      World.closeStopped { w with s := { w.s with running := false } }
  else
    .ok (w.logf Level.warn "Server not running" [])

/-- The method `Server.StartFailureReason`. -/
def StartFailureReason (s : Server) : GoError := s.failedError

/-! ## RPC handlers -/

/-- The handler `Server.OnAdminEvent`: the world after the call, the response pointer and
the error. -/
def OnAdminEvent (w : World) (request : Option AdminEventRequest) :
    World × Option Empty × GoError :=
  (w.logf Level.info "OnAdminEvent"
      [("admin-event", LogValue.adminEvent (AdminEventRequest.GetAdminEvent request))],
    some {}, none)

/-- The handler `Server.OnEvent`: the world after the call, the response pointer and the
error. -/
def OnEvent (w : World) (request : Option EventRequest) : World × Option Empty × GoError :=
  (w.logf Level.info "OnEvent" [("event", LogValue.event (EventRequest.GetEvent request))],
    some {}, none)

/-! ## Executions -/

/-- One thing that can happen to a server: a call of one of its methods, or a move of
the accept-loop task. -/
inductive Action where
  | start (env : Env)
  | stop (d : DrainRace)
  | serveReturns (err : GoError)
  | loopStep
  | onEvent (request : Option EventRequest)
  | onAdminEvent (request : Option AdminEventRequest)

/-- The effect of one action. -/
def step (w : World) : Action → Except Panic World
  | Action.start env => Start env w
  | Action.stop d => Stop d w
  | Action.serveReturns err => .ok (serveReturns err w)
  | Action.loopStep => loopStep w
  | Action.onEvent request => .ok (OnEvent w request).1
  | Action.onAdminEvent request => .ok (OnAdminEvent w request).1

/-- The effect of a finite sequence of actions; a panic ends it. -/
def run (w : World) : List Action → Except Panic World
  | [] => .ok w
  | a :: as =>
    match step w a with
    | .error p => .error p
    | .ok w1 => run w1 as

/-- The worlds a server created by `NewServer` can be in. -/
def Reachable (w : World) : Prop :=
  ∃ (cfg : ServerConfig) (as : List Action), run (NewWorld cfg) as = .ok w

/-! ## Invariant of the reachable worlds -/

/-- The task still has `close(s.chanFailed)` ahead of it, or may get there. -/
def LoopState.mayCloseFailed : LoopState → Bool
  | LoopState.serving _ => true
  | LoopState.returned _ => true
  | LoopState.closingErr => true
  | LoopState.closingFailed => true
  | _ => false

/-- The task still has `close(chanErr)` ahead of it, or may get there. -/
def LoopState.mayCloseErr : LoopState → Bool
  | LoopState.serving _ => true
  | LoopState.returned _ => true
  | LoopState.closingErr => true
  | _ => false

/-- What holds of every reachable world: before the first `Start` nothing has happened;
a running server has an engine and an open `stopped`; a channel the accept-loop task may
still close is open. -/
structure Inv (w : World) : Prop where
  fresh : w.s.wasStarted = false →
    w.s.running = false ∧ w.s.chanReady.closed = false ∧ w.s.chanFailed.closed = false ∧
      w.s.chanStopped.closed = false ∧ w.loop = LoopState.notLaunched ∧ w.s.srv = none
  engine : w.s.running = true → w.s.srv.isSome = true ∧ w.s.chanStopped.closed = false
  failedOpen : w.loop.mayCloseFailed = true → w.s.chanFailed.closed = false
  errOpen : w.loop.mayCloseErr = true → w.chanErr.closed = false

/-- The accept-loop task is between `s.failedError = err` and the end of
`close(s.chanFailed)`. -/
def LoopState.reporting : LoopState → Bool
  | LoopState.closingErr => true
  | LoopState.closingFailed => true
  | _ => false

/-- Once `failed` is closed, or about to be closed by the accept-loop task, a failure
reason is stored. -/
structure Recorded (w : World) : Prop where
  closed : w.s.chanFailed.closed = true → w.s.failedError.isSome = true
  pending : w.loop.reporting = true → w.s.failedError.isSome = true

/-- The situation of lines 97-102 of `Start`: TLS is enabled, the trusted-CA path is
non-empty, its file reads, and no certificate parses out of it. -/
def pemParseFails (env : Env) (cfg : ServerConfig) : Prop :=
  cfg.NoTLS = false ∧ cfg.TLSTrustedCertificatesFilePath ≠ "" ∧
    (env.ReadFile cfg.TLSTrustedCertificatesFilePath).2 = none ∧
    env.ParsePEMCerts (env.ReadFile cfg.TLSTrustedCertificatesFilePath).1 = []

/-- No `Start` among the actions is made on a host where `pemParseFails`. -/
def avoidsPemFailure (cfg : ServerConfig) : List Action → Prop
  | [] => True
  | Action.start env :: as => ¬ pemParseFails env cfg ∧ avoidsPemFailure cfg as
  | _ :: as => avoidsPemFailure cfg as

/-- A world no execution reaches: nothing started, yet `failed` already closed. -/
def corruptWorld : World :=
  { s := { NewServer
      { BindHostPort := "localhost", NoTLS := true, TLSTrustedCertificatesFilePath := "",
        TLSCertificateFilePath := "", TLSKeyFilePath := "", GracefulStopTimeoutMillis := 0 } with
      chanFailed := { closed := true } }
    log := [], binds := [], loop := LoopState.notLaunched, chanErr := makeChan }

/-! ## Concrete hosts and configurations -/

/-- A host on which `:5000` binds and no other address does, the files under `/etc/tls/` named below exist
(`empty.pem` holds no certificate) and every key pair parses; the accept loop
survives the startup grace period. -/
def hostEnv : Env :=
  { Listen := fun network address =>
      if address = ":5000" then (some { network := network, address := address }, none)
      else if address = "localhost" then
        (none, some "listen tcp: address localhost: missing port in address")
      else (none, some "listen tcp: bind: address already in use")
    ReadFile := fun path =>
      if path = "/etc/tls/server.crt" then ([1, 1], none)
      else if path = "/etc/tls/server.key" then ([2, 2], none)
      else if path = "/etc/tls/ca.pem" then ([3, 3], none)
      else if path = "/etc/tls/empty.pem" then ([], none)
      else ([], some "open: no such file or directory")
    X509KeyPair := fun c k => ({ cert := c, key := k }, none)
    ParsePEMCerts := fun pem => if pem = [] then [] else [pem]
    race := StartupRace.graceElapsed }

/-- TLS disabled, default address. -/
def cfgPlain : ServerConfig :=
  { BindHostPort := ":5000", NoTLS := true, TLSTrustedCertificatesFilePath := "",
    TLSCertificateFilePath := "", TLSKeyFilePath := "", GracefulStopTimeoutMillis := 200 }

/-- TLS disabled and a certificate path that cannot be read. -/
def cfgPlainMissingCert : ServerConfig :=
  { cfgPlain with TLSCertificateFilePath := "/etc/tls/missing.crt" }

/-- TLS disabled and an address without port, which `net.Listen` rejects. -/
def cfgPlainBadAddress : ServerConfig :=
  { cfgPlain with BindHostPort := "localhost" }

/-- Server-only TLS. -/
def cfgTLS : ServerConfig :=
  { BindHostPort := ":5000", NoTLS := false, TLSTrustedCertificatesFilePath := "",
    TLSCertificateFilePath := "/etc/tls/server.crt", TLSKeyFilePath := "/etc/tls/server.key",
    GracefulStopTimeoutMillis := 5000 }

/-- Mutual TLS with a good trusted-CA bundle. -/
def cfgMutualTLS : ServerConfig :=
  { cfgTLS with TLSTrustedCertificatesFilePath := "/etc/tls/ca.pem" }

/-- Mutual TLS with a trusted-CA file that reads but holds no certificate. -/
def cfgEmptyCA : ServerConfig :=
  { cfgTLS with TLSTrustedCertificatesFilePath := "/etc/tls/empty.pem" }

/-- TLS enabled and a certificate path that cannot be read. -/
def cfgTLSMissingCert : ServerConfig :=
  { cfgTLS with TLSCertificateFilePath := "/etc/tls/missing.crt" }

/-- A server that was started on `hostEnv` without TLS and is running. -/
def runningWorld : World :=
  { s :=
      { config := cfgPlain
        chanReady := { closed := true }
        chanStopped := makeChan
        chanFailed := makeChan
        failedError := none
        srv := some (RegisterKeycloakEventServiceServer (grpcNewServer none))
        wasStarted := true
        running := true }
    log :=
      [{ level := Level.info, msg := "TCP listener created",
         args := [("hostport", LogValue.str ":5000")] },
       { level := Level.warn, msg := "Starting without TLS, use TLS in production", args := [] },
       { level := Level.info, msg := "Registering seervice with the GRPC server", args := [] },
       { level := Level.info, msg := "GRPC server running", args := [] }]
    binds := [":5000"]
    loop := LoopState.serving (some { network := "tcp", address := ":5000" })
    chanErr := makeChan }

/-- A server whose first `Start` failed to bind (`cfgPlainBadAddress` on `hostEnv`). -/
def failedWorld : World :=
  { s :=
      { config := cfgPlainBadAddress
        chanReady := makeChan
        chanStopped := makeChan
        chanFailed := { closed := true }
        failedError := some "listen tcp: address localhost: missing port in address"
        srv := none
        wasStarted := true
        running := false }
    log :=
      [{ level := Level.error, msg := "Failed to create TCP listener",
         args := [("hostport", LogValue.str "localhost"),
                  ("reason",
                    LogValue.err (some "listen tcp: address localhost: missing port in address"))] }]
    binds := ["localhost"]
    loop := LoopState.notLaunched
    chanErr := makeChan }

/-- A running server whose accept loop then fails: `Start`, then `Serve` returns an error
and the task runs to its end. -/
def lateFailure : List Action :=
  [Action.start hostEnv, Action.serveReturns (some "accept tcp: too many open files"),
   Action.loopStep, Action.loopStep, Action.loopStep]

/-- What the accept-loop task does when `Stop` has run before the task reached `Serve` (the
timer of `Start` is 100 ns): `s.srv.Serve(listener)` on a stopped engine returns the non-nil
`grpc.ErrServerStopped`, and the task runs lines 122-125 to its end. -/
def serveAfterStop : List Action :=
  [Action.serveReturns (some "grpc: the server has been stopped"),
   Action.loopStep, Action.loopStep, Action.loopStep]

/-! ## Basic facts about the operations -/

@[simp]
theorem logf_s (w : World) (l : Level) (m : String) (a : List (String × LogValue)) :
    (w.logf l m a).s = w.s := rfl

@[simp]
theorem logf_loop (w : World) (l : Level) (m : String) (a : List (String × LogValue)) :
    (w.logf l m a).loop = w.loop := rfl

@[simp]
theorem logf_binds (w : World) (l : Level) (m : String) (a : List (String × LogValue)) :
    (w.logf l m a).binds = w.binds := rfl

@[simp]
theorem logf_chanErr (w : World) (l : Level) (m : String)
    (a : List (String × LogValue)) : (w.logf l m a).chanErr = w.chanErr := rfl

/-- Logging does not disturb the invariant. -/
theorem Inv.logf {w : World} (h : Inv w) (l : Level) (m : String)
    (a : List (String × LogValue)) : Inv (w.logf l m a) :=
  ⟨h.fresh, h.engine, h.failedOpen, h.errOpen⟩

/-- A `Start` after the first one only logs a warning. -/
theorem Start_of_wasStarted (env : Env) (w : World) (h : w.s.wasStarted = true) :
    Start env w = .ok (w.logf Level.warn "Server was already started, can't start twice" []) := by
  simp [Start, h]

/-- A `Stop` on a server that is not running only logs a warning. -/
theorem Stop_of_not_running (d : DrainRace) (w : World) (h : w.s.running = false) :
    Stop d w = .ok (w.logf Level.warn "Server not running" []) := by
  simp [Stop, h]

/-- The invariant holds of a freshly constructed server. -/
theorem Inv_NewWorld (cfg : ServerConfig) : Inv (NewWorld cfg) := by
  constructor <;> simp [NewWorld, NewServer, makeChan, LoopState.mayCloseFailed,
    LoopState.mayCloseErr]

/-- On a world satisfying the invariant `Start` does not panic and re-establishes the invariant. -/
theorem Start_inv (env : Env) (w : World) (h : Inv w) :
    ∃ w1, Start env w = .ok w1 ∧ Inv w1 := by
  cases hs : w.s.wasStarted with
  | true => exact ⟨_, Start_of_wasStarted env w hs, h.logf _ _ _⟩
  | false =>
    obtain ⟨h1, h2, h3, h4, h5, h6⟩ := h.fresh hs
    rcases env with ⟨L, R, X, P, race⟩
    cases race <;>
    · simp only [Start, hs]
      simp [World.failWith, World.closeFailed, World.closeReady, Chan.close, Start.serve,
        serveReturns, loopStep, World.logf, h2, h3, makeChan]
      split_ifs <;>
      · refine ⟨_, rfl, ?_⟩
        constructor <;>
          simp [LoopState.mayCloseFailed, LoopState.mayCloseErr, h1, h3, h4, h5, h6]

/-- On a world satisfying the invariant `Stop` does not panic and re-establishes the invariant. -/
theorem Stop_inv (d : DrainRace) (w : World) (h : Inv w) :
    ∃ w1, Stop d w = .ok w1 ∧ Inv w1 := by
  cases hr : w.s.running with
  | false => exact ⟨_, Stop_of_not_running d w hr, h.logf _ _ _⟩
  | true =>
    obtain ⟨h1, h2⟩ := h.engine hr
    obtain ⟨srv, h3⟩ := Option.isSome_iff_exists.mp h1
    have hw : w.s.wasStarted = true := by
      cases hs : w.s.wasStarted with
      | true => rfl
      | false => have := (h.fresh hs).1; simp [hr] at this
    have hf := h.failedOpen
    have he := h.errOpen
    cases d <;>
    · simp only [Stop, hr]
      simp [World.closeStopped, Chan.close, World.logf, h2, h3]
      constructor <;> simp [hw, hf, he]
      · exact hf
      · exact he

/-- The accept-loop task noticing that `Serve` returned keeps the invariant. -/
theorem serveReturns_inv (err : GoError) (w : World) (h : Inv w) : Inv (serveReturns err w) := by
  have h1 := h.fresh
  have h2 := h.engine
  have h3 := h.failedOpen
  have h4 := h.errOpen
  unfold serveReturns
  cases hl : w.loop <;> cases err <;>
    simp only [hl, World.logf] <;>
    constructor <;>
    simp_all [LoopState.mayCloseFailed, LoopState.mayCloseErr]

/-- A step of the accept-loop task does not panic and keeps the invariant. -/
theorem loopStep_inv (w : World) (h : Inv w) : ∃ w1, loopStep w = .ok w1 ∧ Inv w1 := by
  have h1 := h.fresh
  have h2 := h.engine
  have h3 := h.failedOpen
  have h4 := h.errOpen
  unfold loopStep
  cases hl : w.loop <;>
    simp only [hl, World.closeFailed, Chan.close] <;>
    simp_all [LoopState.mayCloseFailed, LoopState.mayCloseErr] <;>
    constructor <;>
    simp_all [LoopState.mayCloseFailed, LoopState.mayCloseErr]

/-- Every action, taken in a world satisfying the invariant, succeeds and keeps it. -/
theorem step_inv (a : Action) (w : World) (h : Inv w) : ∃ w1, step w a = .ok w1 ∧ Inv w1 := by
  cases a with
  | start env => exact Start_inv env w h
  | stop d => exact Stop_inv d w h
  | serveReturns err => exact ⟨_, rfl, serveReturns_inv err w h⟩
  | loopStep => exact loopStep_inv w h
  | onEvent request => exact ⟨_, rfl, h.logf _ _ _⟩
  | onAdminEvent request => exact ⟨_, rfl, h.logf _ _ _⟩

/-- Every finite sequence of actions, taken from a world satisfying the invariant, succeeds
and keeps it. -/
theorem run_inv (as : List Action) : ∀ (w : World), Inv w → ∃ w1, run w as = .ok w1 ∧ Inv w1 := by
  induction as with
  | nil => intro w h; exact ⟨w, rfl, h⟩
  | cons a as ih =>
    intro w h
    obtain ⟨w1, h1, h2⟩ := step_inv a w h
    obtain ⟨w2, h3, h4⟩ := ih w1 h2
    exact ⟨w2, by simp [run, h1, h3], h4⟩

/-- Every reachable world satisfies the invariant. -/
theorem Reachable.inv {w : World} (h : Reachable w) : Inv w := by
  obtain ⟨cfg, as, hrun⟩ := h
  obtain ⟨w1, h1, h2⟩ := run_inv as (NewWorld cfg) (Inv_NewWorld cfg)
  rw [hrun] at h1
  cases h1
  exact h2

/-- The world `runningWorld` is what `Start` makes of a fresh server. -/
theorem Start_runningWorld : Start hostEnv (NewWorld cfgPlain) = .ok runningWorld := rfl

/-- The world `runningWorld` is reachable. -/
theorem runningWorld_reachable : Reachable runningWorld :=
  ⟨cfgPlain, [Action.start hostEnv], rfl⟩

/-- The world `failedWorld` is reachable. -/
theorem failedWorld_reachable : Reachable failedWorld :=
  ⟨cfgPlainBadAddress, [Action.start hostEnv], rfl⟩

/-- Once `Start` has been called, the server is not running and no accept-loop task exists,
no action changes any field of the server. -/
theorem step_of_settled (a : Action) (w : World) (hs : w.s.wasStarted = true)
    (hr : w.s.running = false) (hl : w.loop = LoopState.notLaunched) :
    ∃ w1, step w a = .ok w1 ∧ w1.s = w.s ∧ w1.loop = LoopState.notLaunched := by
  cases a with
  | start env => exact ⟨_, Start_of_wasStarted env w hs, rfl, hl⟩
  | stop d => exact ⟨_, Stop_of_not_running d w hr, rfl, hl⟩
  | serveReturns err => exact ⟨_, rfl, by simp [serveReturns, hl], by simp [serveReturns, hl]⟩
  | loopStep => exact ⟨w, by simp [step, loopStep, hl], rfl, hl⟩
  | onEvent request => exact ⟨_, rfl, rfl, hl⟩
  | onAdminEvent request => exact ⟨_, rfl, rfl, hl⟩

/-- The same for every finite sequence of actions. -/
theorem run_of_settled (as : List Action) : ∀ (w : World), w.s.wasStarted = true →
    w.s.running = false → w.loop = LoopState.notLaunched →
    ∃ w1, run w as = .ok w1 ∧ w1.s = w.s := by
  induction as with
  | nil => intro w _ _ _; exact ⟨w, rfl, rfl⟩
  | cons a as ih =>
    intro w hs hr hl
    obtain ⟨w1, h1, h2, h3⟩ := step_of_settled a w hs hr hl
    obtain ⟨w2, h4, h5⟩ := ih w1 (by rw [h2]; exact hs) (by rw [h2]; exact hr) h3
    exact ⟨w2, by simp [run, h1, h4], by rw [h5, h2]⟩

/-- The model does detect a second `close`: from the unreachable `corruptWorld` a `Start`
whose bind fails panics on `close(s.chanFailed)`. -/
theorem Start_corruptWorld_panics :
    Start hostEnv corruptWorld = .error Panic.closeOfClosedChannel := rfl

/-- The invariant `Recorded` holds of a freshly constructed server. -/
theorem Recorded_NewWorld (cfg : ServerConfig) : Recorded (NewWorld cfg) := by
  constructor <;> simp [NewWorld, NewServer, makeChan, LoopState.reporting]

/-- A `Start` that does not meet a trusted-CA file without certificate keeps `Recorded`;
no `Start` changes the configuration. -/
theorem Start_recorded (env : Env) (w : World) (hi : Inv w) (hk : Recorded w)
    (hp : ¬ pemParseFails env w.s.config) :
    ∃ w1, Start env w = .ok w1 ∧ Recorded w1 ∧ w1.s.config = w.s.config := by
  cases hs : w.s.wasStarted with
  | true => exact ⟨_, Start_of_wasStarted env w hs, ⟨hk.closed, hk.pending⟩, rfl⟩
  | false =>
    obtain ⟨h1, h2, h3, h4, h5, h6⟩ := hi.fresh hs
    rcases env with ⟨L, R, X, P, race⟩
    simp only [pemParseFails] at hp
    cases race <;>
    · simp only [Start, hs]
      simp [World.failWith, World.closeFailed, World.closeReady, Chan.close, Start.serve,
        serveReturns, loopStep, World.logf, h2, h3, makeChan, CertPool.AppendCertsFromPEM,
        NewCertPool]
      split_ifs <;>
      · refine ⟨_, rfl, ?_, rfl⟩
        constructor <;> simp_all [LoopState.reporting]

/-- The method `Stop` writes neither the failure reason nor `failed`. -/
theorem Stop_recorded (d : DrainRace) (w : World) (hi : Inv w) (hk : Recorded w) :
    ∃ w1, Stop d w = .ok w1 ∧ Recorded w1 ∧ w1.s.config = w.s.config := by
  cases hr : w.s.running with
  | false => exact ⟨_, Stop_of_not_running d w hr, ⟨hk.closed, hk.pending⟩, rfl⟩
  | true =>
    obtain ⟨h1, h2⟩ := hi.engine hr
    obtain ⟨srv, h3⟩ := Option.isSome_iff_exists.mp h1
    have hc := hk.closed
    have hp := hk.pending
    cases d <;>
    · simp only [Stop, hr]
      simp [World.closeStopped, Chan.close, World.logf, h2, h3]
      constructor
      · exact hc
      · exact hp

/-- The accept-loop task noticing that `Serve` returned keeps `Recorded`. -/
theorem serveReturns_recorded (err : GoError) (w : World) (hk : Recorded w) :
    Recorded (serveReturns err w) ∧ (serveReturns err w).s.config = w.s.config := by
  have hc := hk.closed
  have hp := hk.pending
  refine ⟨?_, ?_⟩
  · unfold serveReturns
    cases hl : w.loop <;> cases err <;>
      simp only [hl, World.logf] <;>
      constructor <;>
      simp_all [LoopState.reporting]
  · unfold serveReturns
    cases w.loop <;> cases err <;> rfl

/-- A step of the accept-loop task keeps `Recorded`: it stores the reason before it closes
`failed`. -/
theorem loopStep_recorded (w : World) (hi : Inv w) (hk : Recorded w) :
    ∃ w1, loopStep w = .ok w1 ∧ Recorded w1 ∧ w1.s.config = w.s.config := by
  have hc := hk.closed
  have hp := hk.pending
  have h3 := hi.failedOpen
  have h4 := hi.errOpen
  unfold loopStep
  cases hl : w.loop <;>
    simp only [hl, World.closeFailed, Chan.close] <;>
    simp_all [LoopState.mayCloseFailed, LoopState.mayCloseErr, LoopState.reporting] <;>
    constructor <;>
    simp_all [LoopState.reporting]

/-- Along an execution whose `Start` calls avoid the trusted-CA file without certificate,
`Inv` and `Recorded` hold and the configuration stays the same. -/
theorem run_recorded (cfg : ServerConfig) (as : List Action) :
    ∀ (w : World), Inv w → Recorded w → w.s.config = cfg → avoidsPemFailure cfg as →
      ∃ w1, run w as = .ok w1 ∧ Recorded w1 := by
  induction as with
  | nil => intro w _ hk _ _; exact ⟨w, rfl, hk⟩
  | cons a as ih =>
    intro w hi hk hcfg hav
    obtain ⟨wi, hstep, hinv⟩ := step_inv a w hi
    have key : ∃ w1, step w a = .ok w1 ∧ Recorded w1 ∧ w1.s.config = w.s.config ∧
        avoidsPemFailure cfg as := by
      cases a with
      | start env =>
        obtain ⟨w1, h1, h2, h3⟩ := Start_recorded env w hi hk (by rw [hcfg]; exact hav.1)
        exact ⟨w1, h1, h2, h3, hav.2⟩
      | stop d =>
        obtain ⟨w1, h1, h2, h3⟩ := Stop_recorded d w hi hk
        exact ⟨w1, h1, h2, h3, hav⟩
      | serveReturns err =>
        exact ⟨_, rfl, (serveReturns_recorded err w hk).1, (serveReturns_recorded err w hk).2, hav⟩
      | loopStep =>
        obtain ⟨w1, h1, h2, h3⟩ := loopStep_recorded w hi hk
        exact ⟨w1, h1, h2, h3, hav⟩
      | onEvent request => exact ⟨_, rfl, ⟨hk.closed, hk.pending⟩, rfl, hav⟩
      | onAdminEvent request => exact ⟨_, rfl, ⟨hk.closed, hk.pending⟩, rfl, hav⟩
    obtain ⟨w1, h1, h2, h3, h4⟩ := key
    have hw : wi = w1 := by
      rw [hstep] at h1
      cases h1
      rfl
    subst hw
    obtain ⟨w2, h5, h6⟩ := ih wi hinv h2 (by rw [h3]; exact hcfg) h4
    exact ⟨w2, by simp [run, hstep, h5], h6⟩

/-- Apart from the trusted-CA file without certificate, the failure reason is always
recorded: in every world reached by an execution none of whose `Start` calls meets that
situation, `failed` closed implies a non-nil `StartFailureReason`. -/
theorem failure_reason_recorded_elsewhere (cfg : ServerConfig) (as : List Action)
    (hav : avoidsPemFailure cfg as) (w : World) (hrun : run (NewWorld cfg) as = .ok w)
    (hclosed : w.s.chanFailed.closed = true) : (StartFailureReason w.s).isSome = true := by
  obtain ⟨w1, h1, h2⟩ :=
    run_recorded cfg as (NewWorld cfg) (Inv_NewWorld cfg) (Recorded_NewWorld cfg) rfl hav
  rw [hrun] at h1
  cases h1
  exact h2.closed hclosed

/-! ## The claims -/

/-- C1, evaluated where it fails: TLS is enabled, the key pair loads, the trusted-CA file
`/etc/tls/empty.pem` reads but holds no certificate.  `Start` closes `chanFailed` and
`StartFailureReason` is `nil`: the branch stores the `err` of the successful `ReadFile`. -/
theorem start_pem_failure_records_no_reason :
    ∃ w, Start hostEnv (NewWorld cfgEmptyCA) = .ok w ∧ w.s.chanFailed.closed = true ∧
      StartFailureReason w.s = none :=
  ⟨_, rfl, rfl, rfl⟩

/-- C2: from a server created by `NewServer`, every finite sequence of `Start` calls, `Stop`
calls, accept-loop moves and handler calls runs to its end without a panic; in
particular no `close` is ever applied to a channel that is already closed. -/
theorem signals_closed_at_most_once (cfg : ServerConfig) (as : List Action) :
    (∃ w, run (NewWorld cfg) as = .ok w) ∧
      run (NewWorld cfg) as ≠ .error Panic.closeOfClosedChannel := by
  obtain ⟨w, h, _⟩ := run_inv as (NewWorld cfg) (Inv_NewWorld cfg)
  exact ⟨⟨w, h⟩, by simp [h]⟩

/-- C3: when `Start` has been called before, another `Start` returns normally, leaves every
field of the server as it was (the three signals, the failure reason, the running flag,
the RPC engine), attempts no bind and launches no accept-loop task; it logs one warning. -/
theorem second_start_is_noop (env : Env) (w : World) (h : w.s.wasStarted = true) :
    ∃ w1, Start env w = .ok w1 ∧ w1.s = w.s ∧ w1.binds = w.binds ∧ w1.loop = w.loop ∧
      w1.chanErr = w.chanErr ∧
      w1.log = w.log ++
        [{ level := Level.warn, msg := "Server was already started, can't start twice",
           args := [] }] :=
  ⟨_, Start_of_wasStarted env w h, rfl, rfl, rfl, rfl, rfl⟩

/-- Witness of C3: a second `Start` on the running server `runningWorld`. -/
theorem second_start_is_noop_witness :
    runningWorld.s.wasStarted = true ∧
    ∃ w1, Start hostEnv runningWorld = .ok w1 ∧ w1.s = runningWorld.s ∧
      w1.binds = runningWorld.binds ∧ w1.loop = runningWorld.loop ∧
      w1.chanErr = runningWorld.chanErr ∧
      w1.log = runningWorld.log ++
        [{ level := Level.warn, msg := "Server was already started, can't start twice",
           args := [] }] :=
  ⟨rfl, second_start_is_noop hostEnv runningWorld rfl⟩

/-- C4: when the server is not running (never started, failed during `Start`, or stopped),
`Stop` returns normally and leaves every field of the server as it was: no signal is
closed, the RPC engine receives neither stop call, `wasStarted`, `running` and the
failure reason keep their values; the accept-loop task is not touched and one warning is
logged. -/
theorem stop_not_running_is_noop (d : DrainRace) (w : World) (h : w.s.running = false) :
    ∃ w1, Stop d w = .ok w1 ∧ w1.s = w.s ∧ w1.loop = w.loop ∧ w1.chanErr = w.chanErr ∧
      w1.binds = w.binds ∧
      w1.log = w.log ++ [{ level := Level.warn, msg := "Server not running", args := [] }] :=
  ⟨_, Stop_of_not_running d w h, rfl, rfl, rfl, rfl, rfl⟩

/-- Witness of C4: `Stop` on a server whose `Start` failed at bind. -/
theorem stop_not_running_is_noop_witness :
    failedWorld.s.running = false ∧
    ∃ w1, Stop DrainRace.timedOut failedWorld = .ok w1 ∧ w1.s = failedWorld.s ∧
      w1.loop = failedWorld.loop ∧ w1.chanErr = failedWorld.chanErr ∧
      w1.binds = failedWorld.binds ∧
      w1.log = failedWorld.log ++
        [{ level := Level.warn, msg := "Server not running", args := [] }] :=
  ⟨rfl, stop_not_running_is_noop DrainRace.timedOut failedWorld rfl⟩

/-- C5: on a reachable server with `running = true`, `Stop` returns normally on either
outcome of the drain race, with `running = false` and `stopped` closed; `GracefulStop` is
issued once, the forced `srv.Stop()` is issued exactly when the timeout fired first, and
`failed`, `ready` and the failure reason are as before. -/
theorem stop_running_ends_stopped (w : World) (hw : Reachable w) (hr : w.s.running = true)
    (d : DrainRace) :
    ∃ w1 srv srv1, Stop d w = .ok w1 ∧ w.s.srv = some srv ∧ w1.s.srv = some srv1 ∧
      w1.s.running = false ∧ w1.s.chanStopped.closed = true ∧
      srv1.gracefulStopCalls = srv.gracefulStopCalls + 1 ∧
      (srv1.stopCalls = srv.stopCalls + 1 ↔ d = DrainRace.timedOut) ∧
      (srv1.stopCalls = srv.stopCalls ↔ d = DrainRace.drained) ∧
      w1.s.chanFailed = w.s.chanFailed ∧ w1.s.chanReady = w.s.chanReady ∧
      w1.s.failedError = w.s.failedError := by
  obtain ⟨h1, h2⟩ := hw.inv.engine hr
  obtain ⟨srv, h3⟩ := Option.isSome_iff_exists.mp h1
  cases d <;>
    simp [Stop, hr, h3, h2, World.closeStopped, Chan.close, World.logf, GrpcServer.GracefulStop,
      GrpcServer.Stop]

/-- Witness of C5: `Stop` on `runningWorld` when the timeout fires first. -/
theorem stop_running_ends_stopped_witness :
    Reachable runningWorld ∧ runningWorld.s.running = true ∧
    ∃ w1 srv srv1, Stop DrainRace.timedOut runningWorld = .ok w1 ∧
      runningWorld.s.srv = some srv ∧ w1.s.srv = some srv1 ∧
      w1.s.running = false ∧ w1.s.chanStopped.closed = true ∧
      srv1.gracefulStopCalls = srv.gracefulStopCalls + 1 ∧
      (srv1.stopCalls = srv.stopCalls + 1 ↔ DrainRace.timedOut = DrainRace.timedOut) ∧
      (srv1.stopCalls = srv.stopCalls ↔ DrainRace.timedOut = DrainRace.drained) ∧
      w1.s.chanFailed = runningWorld.s.chanFailed ∧ w1.s.chanReady = runningWorld.s.chanReady ∧
      w1.s.failedError = runningWorld.s.failedError :=
  ⟨runningWorld_reachable, rfl,
    stop_running_ends_stopped runningWorld runningWorld_reachable rfl DrainRace.timedOut⟩

/-- C6 as stated fails: with TLS disabled the certificate is never read, so a
configuration whose certificate path is unreadable starts normally: `ready` is closed,
`failed` is not. -/
theorem unreadable_cert_without_tls_becomes_ready :
    (hostEnv.ReadFile cfgPlainMissingCert.TLSCertificateFilePath).2.isSome = true ∧
    ∃ w, Start hostEnv (NewWorld cfgPlainMissingCert) = .ok w ∧
      w.s.chanFailed.closed = false ∧ w.s.chanReady.closed = true ∧ w.s.running = true :=
  ⟨rfl, _, rfl, rfl, rfl, rfl⟩

/-- C6, amended: with TLS enabled and an unreadable certificate path, the first `Start` on
a fresh server returns with `failed` closed, `ready` open and `running = false`, whatever
the bind does; afterwards every finite sequence of actions (further `Start` and `Stop`
calls among them) leaves every field of the server as it is. -/
theorem unreadable_cert_with_tls_fails (env : Env) (cfg : ServerConfig)
    (htls : cfg.NoTLS = false)
    (hcert : (env.ReadFile cfg.TLSCertificateFilePath).2.isSome = true) :
    ∃ w, Start env (NewWorld cfg) = .ok w ∧ w.s.chanFailed.closed = true ∧
      w.s.chanReady.closed = false ∧ w.s.running = false ∧
      ∀ as : List Action, ∃ w1, run w as = .ok w1 ∧ w1.s = w.s := by
  have hpair :
      (LoadX509KeyPair env cfg.TLSCertificateFilePath cfg.TLSKeyFilePath).2.isSome = true := by
    simp [LoadX509KeyPair, hcert]
  by_cases hb : (env.Listen "tcp" cfg.BindHostPort).2.isSome = true
  · refine ⟨_, by simp [Start, NewWorld, NewServer, hb, World.failWith, World.closeFailed,
      Chan.close, makeChan]; rfl, rfl, rfl, rfl, ?_⟩
    intro as
    exact run_of_settled as _ rfl rfl rfl
  · refine ⟨_, by simp [Start, NewWorld, NewServer, hb, htls, hpair, World.failWith,
      World.closeFailed, Chan.close, makeChan]; rfl, rfl, rfl, rfl, ?_⟩
    intro as
    exact run_of_settled as _ rfl rfl rfl

/-- Witness of C6, amended: `cfgTLSMissingCert` on `hostEnv`. -/
theorem unreadable_cert_with_tls_fails_witness :
    cfgTLSMissingCert.NoTLS = false ∧
    (hostEnv.ReadFile cfgTLSMissingCert.TLSCertificateFilePath).2.isSome = true ∧
    ∃ w, Start hostEnv (NewWorld cfgTLSMissingCert) = .ok w ∧ w.s.chanFailed.closed = true ∧
      w.s.chanReady.closed = false ∧ w.s.running = false ∧
      ∀ as : List Action, ∃ w1, run w as = .ok w1 ∧ w1.s = w.s :=
  ⟨rfl, rfl, unreadable_cert_with_tls_fails hostEnv cfgTLSMissingCert rfl rfl⟩

/-- With TLS disabled and an address that does not bind, `Start` closes `failed` and not
`ready`, and the `Stop` that follows closes nothing. -/
theorem start_stop_without_tls_bad_address :
    cfgPlainBadAddress.NoTLS = true ∧
    ∃ w1 w2, Start hostEnv (NewWorld cfgPlainBadAddress) = .ok w1 ∧
      Stop DrainRace.drained w1 = .ok w2 ∧
      w1.s.chanFailed.closed = true ∧ w1.s.chanReady.closed = false ∧
      w1.s.running = false ∧ w2.s.chanStopped.closed = false :=
  ⟨rfl, _, _, rfl, rfl, rfl, rfl, rfl, rfl⟩

/-- The two calls themselves: with TLS disabled, when the address binds and the startup
grace period elapses before the accept loop reports an error, `Start` on a fresh server
returns with `running = true` and `ready` closed, the `Stop` that follows at once returns
with `running = false` and `stopped` closed, and neither call closes `failed`. -/
theorem start_stop_without_tls (env : Env) (cfg : ServerConfig) (d : DrainRace)
    (hplain : cfg.NoTLS = true)
    (hbind : (env.Listen "tcp" cfg.BindHostPort).2 = none)
    (hrace : env.race = StartupRace.graceElapsed) :
    ∃ w1 w2, Start env (NewWorld cfg) = .ok w1 ∧ Stop d w1 = .ok w2 ∧
      (w1.s.running = true ∧ w1.s.chanReady.closed = true ∧ w1.s.chanFailed.closed = false ∧
        w1.s.chanStopped.closed = false) ∧
      (w2.s.running = false ∧ w2.s.chanReady.closed = true ∧ w2.s.chanFailed.closed = false ∧
        w2.s.chanStopped.closed = true) := by
  cases d <;>
    simp [Start, Start.serve, Stop, NewWorld, NewServer, hplain, hbind, hrace, World.closeReady,
      World.closeStopped, Chan.close, makeChan, World.logf]

/-- The same on `cfgPlain` and `hostEnv`, graceful drain. -/
theorem start_stop_without_tls_witness :
    cfgPlain.NoTLS = true ∧ (hostEnv.Listen "tcp" cfgPlain.BindHostPort).2 = none ∧
    hostEnv.race = StartupRace.graceElapsed ∧
    ∃ w1 w2, Start hostEnv (NewWorld cfgPlain) = .ok w1 ∧ Stop DrainRace.drained w1 = .ok w2 ∧
      (w1.s.running = true ∧ w1.s.chanReady.closed = true ∧ w1.s.chanFailed.closed = false ∧
        w1.s.chanStopped.closed = false) ∧
      (w2.s.running = false ∧ w2.s.chanReady.closed = true ∧ w2.s.chanFailed.closed = false ∧
        w2.s.chanStopped.closed = true) :=
  ⟨rfl, rfl, rfl, start_stop_without_tls hostEnv cfgPlain DrainRace.drained rfl rfl rfl⟩

/-- C7, evaluated where it fails: TLS is disabled, `:5000` binds and the timer of `Start`
fires first.  `Start` returns with `running = true` and `ready` closed, the `Stop` that
follows at once returns with `running = false` and `stopped` closed, and `failed` is open
after both; then the accept-loop task, whose `Serve` returns `grpc.ErrServerStopped`,
stores that error and closes `failed`: the lifecycle that went Idle, Running, Stopped ends
with `failed` closed and a failure reason on a server that did start. -/
theorem start_stop_without_tls_closes_failed :
    cfgPlain.NoTLS = true ∧
    ∃ w1 w2 w3, Start hostEnv (NewWorld cfgPlain) = .ok w1 ∧
      Stop DrainRace.drained w1 = .ok w2 ∧ run w2 serveAfterStop = .ok w3 ∧
      (w1.s.running = true ∧ w1.s.chanReady.closed = true ∧ w1.s.chanFailed.closed = false) ∧
      (w2.s.running = false ∧ w2.s.chanStopped.closed = true ∧
        w2.s.chanFailed.closed = false) ∧
      (w3.s.chanReady.closed = true ∧ w3.s.chanStopped.closed = true ∧
        w3.s.chanFailed.closed = true ∧
        StartFailureReason w3.s = some "grpc: the server has been stopped") :=
  ⟨rfl, _, _, _, rfl, rfl, rfl, ⟨rfl, rfl, rfl⟩, ⟨rfl, rfl, rfl⟩, ⟨rfl, rfl, rfl, rfl⟩⟩

/-- C8: TLS is enabled, the address binds and the key pair loads.  (1) When the trusted-CA
path is non-empty, its file reads and holds at least one certificate, `Start` creates the
RPC engine with a TLS context holding the server certificate, `ClientCAs` the pool parsed
from that file and `ClientAuth = RequireAndVerifyClientCert`.  (2) When the trusted-CA path
is empty, the context holds the server certificate only, no client-CA pool and
`ClientAuth = NoClientCert`.  (3) When the trusted-CA path is non-empty and its file cannot
be read or holds no certificate, `Start` returns with `failed` closed, `ready` open and no
RPC engine. -/
theorem client_certificate_policy (env : Env) (cfg : ServerConfig)
    (htls : cfg.NoTLS = false)
    (hbind : (env.Listen "tcp" cfg.BindHostPort).2 = none)
    (hpair : (LoadX509KeyPair env cfg.TLSCertificateFilePath cfg.TLSKeyFilePath).2 = none) :
    (cfg.TLSTrustedCertificatesFilePath ≠ "" →
      (env.ReadFile cfg.TLSTrustedCertificatesFilePath).2 = none →
      env.ParsePEMCerts (env.ReadFile cfg.TLSTrustedCertificatesFilePath).1 ≠ [] →
      ∃ w srv, Start env (NewWorld cfg) = .ok w ∧ w.s.srv = some srv ∧
        srv.creds = some
          { Certificates :=
              [(LoadX509KeyPair env cfg.TLSCertificateFilePath cfg.TLSKeyFilePath).1]
            ClientCAs := some
              { certs := env.ParsePEMCerts (env.ReadFile cfg.TLSTrustedCertificatesFilePath).1 }
            ClientAuth := ClientAuthType.RequireAndVerifyClientCert }) ∧
    (cfg.TLSTrustedCertificatesFilePath = "" →
      ∃ w srv, Start env (NewWorld cfg) = .ok w ∧ w.s.srv = some srv ∧
        srv.creds = some
          { Certificates :=
              [(LoadX509KeyPair env cfg.TLSCertificateFilePath cfg.TLSKeyFilePath).1]
            ClientCAs := none
            ClientAuth := ClientAuthType.NoClientCert }) ∧
    (cfg.TLSTrustedCertificatesFilePath ≠ "" →
      ((env.ReadFile cfg.TLSTrustedCertificatesFilePath).2.isSome = true ∨
        env.ParsePEMCerts (env.ReadFile cfg.TLSTrustedCertificatesFilePath).1 = []) →
      ∃ w, Start env (NewWorld cfg) = .ok w ∧ w.s.chanFailed.closed = true ∧
        w.s.chanReady.closed = false ∧ w.s.srv = none) := by
  refine ⟨?_, ?_, ?_⟩
  · intro hpath hread hpem
    cases hr : env.race <;>
      simp [Start, Start.serve, NewWorld, NewServer, htls, hbind, hpair, hpath, hread, hpem, hr,
        CertPool.AppendCertsFromPEM, NewCertPool, World.closeReady, World.closeFailed, Chan.close,
        makeChan, World.logf, serveReturns, loopStep, grpcNewServer,
        RegisterKeycloakEventServiceServer]
  · intro hpath
    cases hr : env.race <;>
      simp [Start, Start.serve, NewWorld, NewServer, htls, hbind, hpair, hpath, hr,
        World.closeReady, World.closeFailed, Chan.close,
        makeChan, World.logf, serveReturns, loopStep, grpcNewServer,
        RegisterKeycloakEventServiceServer]
  · intro hpath hbad
    rcases hbad with hread | hpem
    · simp [Start, NewWorld, NewServer, htls, hbind, hpair, hpath, hread, World.failWith,
        World.closeFailed, Chan.close, makeChan, World.logf]
    · by_cases hread : (env.ReadFile cfg.TLSTrustedCertificatesFilePath).2.isSome = true
      · simp [Start, NewWorld, NewServer, htls, hbind, hpair, hpath, hread, World.failWith,
          World.closeFailed, Chan.close, makeChan, World.logf]
      · simp [Start, NewWorld, NewServer, htls, hbind, hpair, hpath, hread, hpem,
          CertPool.AppendCertsFromPEM, NewCertPool, World.failWith,
          World.closeFailed, Chan.close, makeChan, World.logf]

/-- Witness of C8 on `hostEnv`: mutual TLS with `/etc/tls/ca.pem`, server-only TLS, and the
trusted-CA file `/etc/tls/empty.pem` that holds no certificate. -/
theorem client_certificate_policy_witness :
    (cfgMutualTLS.NoTLS = false ∧ (hostEnv.Listen "tcp" cfgMutualTLS.BindHostPort).2 = none ∧
      (LoadX509KeyPair hostEnv cfgMutualTLS.TLSCertificateFilePath
        cfgMutualTLS.TLSKeyFilePath).2 = none) ∧
    (∃ w srv, Start hostEnv (NewWorld cfgMutualTLS) = .ok w ∧ w.s.srv = some srv ∧
      srv.creds = some
        { Certificates := [{ cert := [1, 1], key := [2, 2] }]
          ClientCAs := some { certs := [[3, 3]] }
          ClientAuth := ClientAuthType.RequireAndVerifyClientCert }) ∧
    (∃ w srv, Start hostEnv (NewWorld cfgTLS) = .ok w ∧ w.s.srv = some srv ∧
      srv.creds = some
        { Certificates := [{ cert := [1, 1], key := [2, 2] }]
          ClientCAs := none
          ClientAuth := ClientAuthType.NoClientCert }) ∧
    (∃ w, Start hostEnv (NewWorld cfgEmptyCA) = .ok w ∧ w.s.chanFailed.closed = true ∧
      w.s.chanReady.closed = false ∧ w.s.srv = none) :=
  ⟨⟨rfl, rfl, rfl⟩,
    (client_certificate_policy hostEnv cfgMutualTLS rfl rfl rfl).1 (by decide) rfl (by decide),
    (client_certificate_policy hostEnv cfgTLS rfl rfl rfl).2.1 rfl,
    (client_certificate_policy hostEnv cfgEmptyCA rfl rfl rfl).2.2 (by decide) (Or.inr rfl)⟩

/-- C9 as stated fails: a running server whose accept loop then fails has `failed` closed
and `running` still true; a `Stop` on it clears `running` and closes `stopped`. -/
theorem stop_after_late_failure_changes_state :
    ∃ w w1, run (NewWorld cfgPlain) lateFailure = .ok w ∧ w.s.chanFailed.closed = true ∧
      Stop DrainRace.drained w = .ok w1 ∧
      w.s.running = true ∧ w1.s.running = false ∧
      w.s.chanStopped.closed = false ∧ w1.s.chanStopped.closed = true :=
  ⟨_, _, rfl, rfl, rfl, rfl, rfl, rfl, rfl⟩

/-- C9, amended: in every reachable world where `failed` or `stopped` has been closed, a
`Start` call returns normally and leaves every field of the server as it was; so does a
`Stop` call when `stopped` has been closed or `running` is false (a failure during `Start`,
or a server already stopped). -/
theorem terminal_states (w : World) (hw : Reachable w)
    (hc : w.s.chanFailed.closed = true ∨ w.s.chanStopped.closed = true)
    (env : Env) (d : DrainRace) :
    (∃ w1, Start env w = .ok w1 ∧ w1.s = w.s) ∧
    ((w.s.chanStopped.closed = true ∨ w.s.running = false) →
      ∃ w1, Stop d w = .ok w1 ∧ w1.s = w.s) := by
  have hinv := hw.inv
  have hs : w.s.wasStarted = true := by
    cases h : w.s.wasStarted with
    | true => rfl
    | false =>
      obtain ⟨_, _, h3, h4, _⟩ := hinv.fresh h
      rcases hc with hc | hc
      · rw [h3] at hc; cases hc
      · rw [h4] at hc; cases hc
  refine ⟨⟨_, Start_of_wasStarted env w hs, rfl⟩, ?_⟩
  intro h
  have hr : w.s.running = false := by
    rcases h with h | h
    · cases hr : w.s.running with
      | false => rfl
      | true => have := (hinv.engine hr).2; rw [h] at this; cases this
    · exact h
  exact ⟨_, Stop_of_not_running d w hr, rfl⟩

/-- Witness of C9, amended: the server `failedWorld`, whose `Start` failed at bind. -/
theorem terminal_states_witness :
    Reachable failedWorld ∧
    (failedWorld.s.chanFailed.closed = true ∨ failedWorld.s.chanStopped.closed = true) ∧
    (∃ w1, Start hostEnv failedWorld = .ok w1 ∧ w1.s = failedWorld.s) ∧
    (∃ w1, Stop DrainRace.drained failedWorld = .ok w1 ∧ w1.s = failedWorld.s) :=
  ⟨failedWorld_reachable, Or.inl rfl,
    (terminal_states failedWorld failedWorld_reachable (Or.inl rfl) hostEnv
      DrainRace.drained).1,
    (terminal_states failedWorld failedWorld_reachable (Or.inl rfl) hostEnv
      DrainRace.drained).2 (Or.inr rfl)⟩

/-- C10: for every request (the nil request and the request without payload included) and
every world, `OnEvent` and `OnAdminEvent` return a non-nil `Empty` and a nil error, and
leave every field of the server as it was; their only effect is one line in the log. -/
theorem handlers_acknowledge (w : World) (request : Option EventRequest)
    (adminRequest : Option AdminEventRequest) :
    (OnEvent w request).2 = (some Empty.mk, none) ∧
    (OnEvent w request).1.s = w.s ∧
    (OnEvent w request).1 =
      w.logf Level.info "OnEvent" [("event", LogValue.event (EventRequest.GetEvent request))] ∧
    (OnAdminEvent w adminRequest).2 = (some Empty.mk, none) ∧
    (OnAdminEvent w adminRequest).1.s = w.s ∧
    (OnAdminEvent w adminRequest).1 =
      w.logf Level.info "OnAdminEvent"
        [("admin-event",
          LogValue.adminEvent (AdminEventRequest.GetAdminEvent adminRequest))] :=
  ⟨rfl, rfl, rfl, rfl, rfl, rfl⟩

end KeycloakEventServer
